import Mathlib

set_option maxHeartbeats 1000000

/-!
Shallow embedding of the AVR peripheral drivers of the eer-hal repository
(src/platforms/avr/{timer,uart,adc,i2c}.c and the SPI driver), together with
theorems settling the specification claims about them.

Machine integers are modelled as `Nat` with explicit reductions modulo
2^8 / 2^16 / 2^32 at the points where the C code stores into a register or
truncating variable.  Memory-mapped registers become fields of explicit
state structures; interrupt-driven hardware behaviour becomes an explicit
environment argument (a stream of hardware responses).  Callback function
pointers are modelled as `Option Nat` (a handler identity, `none` = NULL).
-/

namespace EerHal

/-- Status codes of `eer_hal_status_t` (part_004). -/
inductive HalStatus where
  | ok
  | error
  | busy
  | timeout
  | invalidParam
  | notSupported
deriving DecidableEq, Repr

/-- Truncation to `uint8_t`. -/
def u8 (x : Nat) : Nat := x % 256

/-- Truncation to `uint16_t`. -/
def u16 (x : Nat) : Nat := x % 65536

/-- Truncation to `uint32_t`. -/
def u32 (x : Nat) : Nat := x % 4294967296

/-- `(1 << n)`. -/
def bit (n : Nat) : Nat := 1 <<< n

/-- `x &= ~mask` on an 8-bit register (`mask < 256`). -/
def clear8 (x mask : Nat) : Nat := x &&& (255 ^^^ mask)

/-! ## Timer driver (src/platforms/avr/timer.c)

Register bit positions of ATmega328 Timer1. -/

def WGM10 : Nat := 0
def WGM11 : Nat := 1
def COM1B0 : Nat := 4
def COM1B1 : Nat := 5
def COM1A0 : Nat := 6
def COM1A1 : Nat := 7
def WGM12 : Nat := 3
def WGM13 : Nat := 4
def CS10 : Nat := 0
def CS11 : Nat := 1
def CS12 : Nat := 2
def TOIE1 : Nat := 0
def OCIE1A : Nat := 1
def OCIE1B : Nat := 2
def ICIE1 : Nat := 5

/-- `eer_timer_mode_t`. -/
inductive TimerMode where
  | oneShot
  | continuous
  | pwm
deriving DecidableEq, Repr

/-- `eer_timer_config_t`: mode plus a `uint32_t` period in ticks. -/
structure TimerConfig where
  mode : TimerMode
  period : Nat
deriving DecidableEq, Repr

/-- The static `timer_callbacks` table of timer.c. -/
structure TimerCallbacks where
  overflowHandler : Option Nat
  overflowUserData : Option Nat
  compareAHandler : Option Nat
  compareAUserData : Option Nat
  compareBHandler : Option Nat
  compareBUserData : Option Nat
  captureHandler : Option Nat
  captureUserData : Option Nat
deriving DecidableEq, Repr

/-- Driver state: the Timer1 registers the driver touches, the callback
table and the stored `current_config`. -/
structure TimerSt where
  tccra : Nat
  tccrb : Nat
  timsk : Nat
  tcnt : Nat
  icr : Nat
  ocra : Nat
  ocrb : Nat
  callbacks : TimerCallbacks
  currentConfig : TimerConfig
deriving DecidableEq, Repr

/-- `avr_timer_init` (timer.c lines 25-69).  The NULL-config check is not
representable (a config value is always present); all other steps are
transcribed in order. -/
def avr_timer_init (config : TimerConfig) (st : TimerSt) : HalStatus × TimerSt :=
  let st := { st with currentConfig := config }
  let st := { st with tccra := 0, tccrb := 0, timsk := 0, tcnt := 0 }
  let st :=
    match config.mode with
    | .oneShot | .continuous =>
        let st := { st with tccra := clear8 st.tccra (bit WGM11 ||| bit WGM10) }
        { st with tccrb := clear8 st.tccrb (bit WGM13 ||| bit WGM12) }
    | .pwm =>
        let st := { st with tccra := u8 (st.tccra ||| bit WGM11) }
        let st := { st with tccra := clear8 st.tccra (bit WGM10) }
        let st := { st with tccrb := u8 (st.tccrb ||| (bit WGM13 ||| bit WGM12)) }
        let st := { st with icr := u16 config.period }
        let st := { st with tccra := u8 (st.tccra ||| (bit COM1A1 ||| bit COM1B1)) }
        { st with tccra := clear8 st.tccra (bit COM1A0 ||| bit COM1B0) }
  let st := { st with tccrb := u8 (st.tccrb ||| bit CS11) }
  (.ok, st)

/-- `avr_timer_deinit` (timer.c lines 71-89). -/
def avr_timer_deinit (st : TimerSt) : HalStatus × TimerSt :=
  let st := { st with tccrb := clear8 st.tccrb (bit CS12 ||| bit CS11 ||| bit CS10) }
  let st := { st with timsk := 0 }
  (.ok, { st with callbacks :=
    { overflowHandler := none, overflowUserData := none,
      compareAHandler := none, compareAUserData := none,
      compareBHandler := none, compareBUserData := none,
      captureHandler := none, captureUserData := none } })

/-- `avr_timer_set_period` (timer.c lines 109-130). -/
def avr_timer_set_period (period : Nat) (st : TimerSt) : HalStatus × TimerSt :=
  if period > 0xFFFF then (.invalidParam, st)
  else
    let st :=
      if st.currentConfig.mode = .pwm then
        { st with icr := u16 period }
      else
        if st.callbacks.overflowHandler ≠ none then
          { st with timsk := u8 (st.timsk ||| bit TOIE1) }
        else st
    (.ok, { st with currentConfig := { st.currentConfig with period := period } })

/-- `avr_timer_set_compare` (timer.c lines 142-160). -/
def avr_timer_set_compare (channel value : Nat) (st : TimerSt) : HalStatus × TimerSt :=
  if value > 0xFFFF then (.invalidParam, st)
  else
    match channel with
    | 0 => (.ok, { st with ocra := u16 value })
    | 1 => (.ok, { st with ocrb := u16 value })
    | _ => (.invalidParam, st)

/-- `avr_timer_set_pwm_duty_cycle` (timer.c lines 162-182).  The compare
value is computed in `uint32_t` arithmetic and stored into a `uint16_t`
local before the register write. -/
def avr_timer_set_pwm_duty_cycle (channel dutyCycle : Nat) (st : TimerSt) :
    HalStatus × TimerSt :=
  if dutyCycle > 100 ∨ st.currentConfig.mode ≠ .pwm then (.invalidParam, st)
  else
    let compareValue := u16 (u32 (st.currentConfig.period * dutyCycle) / 100)
    match channel with
    | 0 => (.ok, { st with ocra := compareValue })
    | 1 => (.ok, { st with ocrb := compareValue })
    | _ => (.invalidParam, st)

/-- A sample timer state used to instantiate witnesses. -/
def timerSt0 : TimerSt :=
  { tccra := 0, tccrb := 0, timsk := 0, tcnt := 0, icr := 0, ocra := 0, ocrb := 0,
    callbacks :=
      { overflowHandler := none, overflowUserData := none,
        compareAHandler := none, compareAUserData := none,
        compareBHandler := none, compareBUserData := none,
        captureHandler := none, captureUserData := none },
    currentConfig := { mode := .continuous, period := 0 } }

/-- Claim C10: `set_period` and `set_compare` reject any value above 0xFFFF
with `EER_HAL_INVALID_PARAM`, leaving every register and the stored
configuration untouched. -/
theorem timer_rejects_out_of_range (st : TimerSt) (v ch : Nat) (h : 0xFFFF < v) :
    avr_timer_set_period v st = (.invalidParam, st) ∧
    avr_timer_set_compare ch v st = (.invalidParam, st) := by
  constructor
  · simp [avr_timer_set_period, h]
  · simp [avr_timer_set_compare, h]

/-- Witness for C10 at the concrete value 0x10000. -/
theorem timer_rejects_out_of_range_witness :
    avr_timer_set_period 65536 timerSt0 = (.invalidParam, timerSt0) ∧
    avr_timer_set_compare 0 65536 timerSt0 = (.invalidParam, timerSt0) :=
  timer_rejects_out_of_range timerSt0 65536 0 (by decide)

/-- Claim C7: for a period within the 16-bit range, `set_period` is
mode-sensitive: in PWM mode it writes the period into ICR1; in any other
mode it writes no period register and enables the overflow interrupt
exactly when an overflow callback is registered; in both cases it records
the period in the stored configuration and returns OK. -/
theorem timer_set_period_mode_sensitive (st : TimerSt) (p : Nat) (hp : p ≤ 0xFFFF) :
    (st.currentConfig.mode = .pwm →
      avr_timer_set_period p st =
        (.ok, { st with
                  icr := p
                  currentConfig := { st.currentConfig with period := p } })) ∧
    (st.currentConfig.mode ≠ .pwm →
      avr_timer_set_period p st =
        (.ok, { st with
                  timsk := if st.callbacks.overflowHandler = none then st.timsk
                           else u8 (st.timsk ||| bit TOIE1),
                  currentConfig := { st.currentConfig with period := p } })) := by
  have hlt : ¬ p > 0xFFFF := by omega
  have hu : u16 p = p := Nat.mod_eq_of_lt (by omega)
  constructor
  · intro hm
    simp [avr_timer_set_period, hlt, hm, hu]
  · intro hm
    by_cases hcb : st.callbacks.overflowHandler = none
    · simp [avr_timer_set_period, hlt, hm, hcb]
    · simp [avr_timer_set_period, hlt, hm, hcb]

/-- A sample timer state whose configuration is in PWM mode. -/
def timerStPwm : TimerSt :=
  { timerSt0 with currentConfig := { mode := .pwm, period := 0 } }

/-- Witness for C7: PWM mode writes ICR1, non-PWM mode with no registered
overflow callback leaves the interrupt mask alone. -/
theorem timer_set_period_mode_sensitive_witness :
    avr_timer_set_period 1234 timerSt0 =
      (.ok, { timerSt0 with
                currentConfig := { timerSt0.currentConfig with period := 1234 } }) ∧
    avr_timer_set_period 1234 timerStPwm =
      (.ok, { timerStPwm with
                icr := 1234
                currentConfig := { mode := .pwm, period := 1234 } }) := by
  constructor
  · have h := (timer_set_period_mode_sensitive timerSt0 1234 (by decide)).2 (by decide)
    simpa [timerSt0] using h
  · have h := (timer_set_period_mode_sensitive timerStPwm 1234 (by decide)).1 rfl
    simpa [timerStPwm, timerSt0] using h

/-- Claim C4: after `init` in PWM mode with period P in the 16-bit range,
`set_pwm_duty_cycle(ch, 50)` on channel 0 or 1 writes P/2 into that
channel's compare register and returns OK; a duty cycle above 100, or a
call while not in PWM mode, returns `EER_HAL_INVALID_PARAM` and writes no
register. -/
theorem timer_pwm_duty_cycle_correct (st0 : TimerSt) (P ch : Nat)
    (hP : P ≤ 0xFFFF) (hch : ch = 0 ∨ ch = 1) :
    ((avr_timer_set_pwm_duty_cycle ch 50
        (avr_timer_init { mode := .pwm, period := P } st0).2).1 = .ok ∧
     (if ch = 0 then
        ((avr_timer_set_pwm_duty_cycle ch 50
            (avr_timer_init { mode := .pwm, period := P } st0).2).2).ocra
      else
        ((avr_timer_set_pwm_duty_cycle ch 50
            (avr_timer_init { mode := .pwm, period := P } st0).2).2).ocrb) = P / 2) ∧
    (∀ d : Nat, 100 < d →
      avr_timer_set_pwm_duty_cycle ch d
          (avr_timer_init { mode := .pwm, period := P } st0).2 =
        (.invalidParam, (avr_timer_init { mode := .pwm, period := P } st0).2)) ∧
    (∀ st2 : TimerSt, st2.currentConfig.mode ≠ .pwm →
      avr_timer_set_pwm_duty_cycle ch 50 st2 = (.invalidParam, st2)) := by
  have hval : u16 (u32 (P * 50) / 100) = P / 2 := by
    have h1 : P * 50 % 4294967296 = P * 50 := Nat.mod_eq_of_lt (by omega)
    have h2 : P * 50 / 100 = P / 2 := by omega
    have h3 : P / 2 % 65536 = P / 2 := Nat.mod_eq_of_lt (by omega)
    simp only [u16, u32, h1, h2, h3]
  refine ⟨⟨?_, ?_⟩, ?_, ?_⟩
  · rcases hch with h | h <;>
      simp [avr_timer_set_pwm_duty_cycle, avr_timer_init, h]
  · rcases hch with h | h <;>
      simp [avr_timer_set_pwm_duty_cycle, avr_timer_init, h, hval]
  · intro d hd
    have : d > 100 := hd
    simp [avr_timer_set_pwm_duty_cycle, this]
  · intro st2 hm
    simp [avr_timer_set_pwm_duty_cycle, hm]

/-- Witness for C4 at period 1000, channel 0: duty 50 yields OCR1A = 500,
duty 101 is rejected without touching the state. -/
theorem timer_pwm_duty_cycle_correct_witness :
    ((avr_timer_set_pwm_duty_cycle 0 50
        (avr_timer_init { mode := .pwm, period := 1000 } timerSt0).2).2).ocra = 500 ∧
    avr_timer_set_pwm_duty_cycle 0 101
        (avr_timer_init { mode := .pwm, period := 1000 } timerSt0).2 =
      (.invalidParam, (avr_timer_init { mode := .pwm, period := 1000 } timerSt0).2) := by
  have h := timer_pwm_duty_cycle_correct timerSt0 1000 0 (by decide) (Or.inl rfl)
  exact ⟨by simpa using h.1.2, h.2.1 101 (by decide)⟩

/-! ## UART driver (src/platforms/avr/uart.c)

Register bit positions of the ATmega328 USART0. -/

def RXC0 : Nat := 7
def UDRE0 : Nat := 5
def U2X0 : Nat := 1
def RXCIE0 : Nat := 7
def TXCIE0 : Nat := 6
def RXEN0 : Nat := 4
def TXEN0 : Nat := 3
def UCSZ02 : Nat := 2
def UPM01 : Nat := 5
def UPM00 : Nat := 4
def USBS0 : Nat := 3
def UCSZ01 : Nat := 2
def UCSZ00 : Nat := 1

/-- `eer_uart_data_bits_t`. -/
inductive UartDataBits where
  | five
  | six
  | seven
  | eight
  | nine
deriving DecidableEq, Repr

/-- `eer_uart_parity_t`. -/
inductive UartParity where
  | without
  | even
  | odd
deriving DecidableEq, Repr

/-- `eer_uart_stop_bits_t`. -/
inductive UartStopBits where
  | one
  | two
deriving DecidableEq, Repr

/-- `eer_uart_config_t`. -/
structure UartConfig where
  baudrate : Nat
  dataBits : UartDataBits
  parity : UartParity
  stopBits : UartStopBits
deriving DecidableEq, Repr

/-- The static `uart_callbacks` table of uart.c. -/
structure UartCallbacks where
  rxHandler : Option Nat
  rxUserData : Option Nat
  txHandler : Option Nat
  txUserData : Option Nat
deriving DecidableEq, Repr

/-- Driver state: the USART0 registers the driver touches, the callback
table and the 64-byte circular receive buffer with its head/tail
indices (uint8 values that stay below 64 by the modulo arithmetic). -/
structure UartSt where
  ubrrh : Nat
  ubrrl : Nat
  ucsra : Nat
  ucsrb : Nat
  ucsrc : Nat
  callbacks : UartCallbacks
  rxBuf : Fin 64 → Nat
  rxHead : Fin 64
  rxTail : Fin 64

/-- `uart_calculate_ubrr` (uart.c lines 28-30): computed in C in
`unsigned long` (modelled as 32-bit wrap-around for the `- 1`), then
truncated to `uint16_t`.  `F_CPU` = 16 MHz.  A zero baudrate divides by
zero in C (undefined); Lean yields 0 there. -/
def uart_calculate_ubrr (baudrate : Nat) : Nat :=
  u16 (((16000000 + 4 * baudrate) / (8 * baudrate) + 4294967295) % 4294967296)

/-- `avr_uart_init` (uart.c lines 32-104).  The NULL-config check is not
representable; everything else is transcribed in order. -/
def avr_uart_init (config : UartConfig) (st : UartSt) : HalStatus × UartSt :=
  let ubrr := uart_calculate_ubrr config.baudrate
  let st := { st with ubrrh := u8 (ubrr >>> 8) }
  let st := { st with ubrrl := u8 ubrr }
  let st := { st with ucsra := u8 (st.ucsra ||| bit U2X0) }
  let ucsrcValue : Nat := 0
  let ucsrcValue :=
    match config.dataBits with
    | .five => ucsrcValue
    | .six => ucsrcValue ||| bit UCSZ00
    | .seven => ucsrcValue ||| bit UCSZ01
    | .nine => ucsrcValue ||| (bit UCSZ02 ||| bit UCSZ01 ||| bit UCSZ00)
    | .eight => ucsrcValue ||| (bit UCSZ01 ||| bit UCSZ00)
  let ucsrcValue :=
    match config.parity with
    | .even => ucsrcValue ||| bit UPM01
    | .odd => ucsrcValue ||| (bit UPM01 ||| bit UPM00)
    | .without => ucsrcValue
  let ucsrcValue :=
    if config.stopBits = .two then ucsrcValue ||| bit USBS0 else ucsrcValue
  let st := { st with ucsrc := u8 ucsrcValue }
  let st := { st with ucsrb := u8 (bit RXEN0 ||| bit TXEN0) }
  let st := { st with rxHead := 0, rxTail := 0 }
  (.ok, st)

/-- `avr_uart_deinit` (uart.c lines 106-117). -/
def avr_uart_deinit (st : UartSt) : HalStatus × UartSt :=
  let st := { st with ucsrb := 0 }
  (.ok, { st with callbacks :=
    { rxHandler := none, rxUserData := none, txHandler := none, txUserData := none } })

/-! ### The polling loops of `avr_uart_transmit` / `avr_uart_receive`

The C loops poll a hardware flag; the time source is the placeholder
constant 0 (`uint32_t start_time = 0; uint32_t current_time = 0;` with the
comment "In a real implementation, get current time"), so the elapsed time
tested against the timeout is the constant `(0 - 0)` in `uint32_t`
arithmetic.  `flag i` is the value of the polled hardware flag at the i-th
poll; `fuel` bounds the number of loop iterations we unfold, with `none`
meaning the loop is still running after `fuel` iterations. -/

def uart_wait_flag (flag : Nat → Bool) (timeoutMs : Nat) :
    Nat → Nat → Option (HalStatus × Nat)
  | _, 0 => none
  | iter, fuel + 1 =>
    if flag iter then some (.ok, iter + 1)
    else
      if 0 < timeoutMs then
        if timeoutMs ≤ (0 - 0 : Nat) % 4294967296 then some (.timeout, iter + 1)
        else uart_wait_flag flag timeoutMs (iter + 1) fuel
      else uart_wait_flag flag timeoutMs (iter + 1) fuel

/-- Byte loop of `avr_uart_transmit` (uart.c lines 126-139): wait for
UDRE0, then write the byte to UDR.  Returns the final status, the bytes
written to UDR, and the poll counter. -/
def uart_tx_loop (flag : Nat → Bool) (timeoutMs : Nat) :
    List Nat → Nat → Nat → List Nat → Option (HalStatus × List Nat × Nat)
  | [], iter, _, written => some (.ok, written, iter)
  | d :: rest, iter, fuel, written =>
    match uart_wait_flag flag timeoutMs iter fuel with
    | none => none
    | some (s, iter2) =>
      if s = .ok then uart_tx_loop flag timeoutMs rest iter2 fuel (written ++ [u8 d])
      else some (s, written, iter2)

/-- `avr_uart_transmit` (uart.c lines 119-142). -/
def avr_uart_transmit (flag : Nat → Bool) (data : List Nat) (timeoutMs fuel : Nat) :
    Option (HalStatus × List Nat) :=
  if data = [] then some (.invalidParam, [])
  else (uart_tx_loop flag timeoutMs data 0 fuel []).map fun r => (r.1, r.2.1)

/-- Byte loop of `avr_uart_receive` (uart.c lines 151-164): wait for RXC0,
then read UDR (`rxByte k` is the k-th byte the hardware delivers). -/
def uart_rx_loop (flag : Nat → Bool) (rxByte : Nat → Nat) (timeoutMs : Nat) :
    Nat → Nat → Nat → List Nat → Option (HalStatus × List Nat × Nat)
  | 0, iter, _, received => some (.ok, received, iter)
  | n + 1, iter, fuel, received =>
    match uart_wait_flag flag timeoutMs iter fuel with
    | none => none
    | some (s, iter2) =>
      if s = .ok then
        uart_rx_loop flag rxByte timeoutMs n iter2 fuel
          (received ++ [u8 (rxByte received.length)])
      else some (s, received, iter2)

/-- `avr_uart_receive` (uart.c lines 144-167). -/
def avr_uart_receive (flag : Nat → Bool) (rxByte : Nat → Nat)
    (size timeoutMs fuel : Nat) : Option (HalStatus × List Nat) :=
  if size = 0 then some (.invalidParam, [])
  else (uart_rx_loop flag rxByte timeoutMs size 0 fuel []).map fun r => (r.1, r.2.1)

/-- With the placeholder zero time source, the wait loop never exits while
the polled flag stays clear: the elapsed-time test compares the constant 0
against a positive timeout. -/
theorem uart_wait_flag_stuck (t : Nat) :
    ∀ fuel iter, uart_wait_flag (fun _ => false) (t + 1) iter fuel = none := by
  intro fuel
  induction fuel with
  | zero => intro iter; rfl
  | succ n ih =>
    intro iter
    simp [uart_wait_flag, ih]

/-- Claim C3 (refuted by the code): for any positive timeout `t + 1`, if
the hardware ready flag (UDRE0 for transmit, RXC0 for receive) stays
clear, `avr_uart_transmit` and `avr_uart_receive` never return at all —
in particular they never return `EER_HAL_TIMEOUT` — because the
placeholder time source makes the measured elapsed time the constant 0.
`none` for every fuel bound means the polling loop runs forever. -/
theorem uart_timeout_never_fires (t fuel : Nat) (d : Nat) (data : List Nat)
    (rxByte : Nat → Nat) (n : Nat) :
    avr_uart_transmit (fun _ => false) (d :: data) (t + 1) fuel = none ∧
    avr_uart_receive (fun _ => false) rxByte (n + 1) (t + 1) fuel = none := by
  constructor
  · simp [avr_uart_transmit, uart_tx_loop, uart_wait_flag_stuck]
  · simp [avr_uart_receive, uart_rx_loop, uart_wait_flag_stuck]

/-! ### The receive-complete interrupt handler `ISR(USART_RX_vect)`
(uart.c lines 242-263). -/

/-- `eer_uart_rx_event_t` as constructed by the ISR: `dataIdx` is the
offset of the event's `data` pointer from the start of `rx_buffer`
(`&rx_buffer[rx_head - 1]`, the index computed in `int` arithmetic). -/
structure UartRxEvent where
  dataIdx : Int
  size : Nat
  userData : Option Nat
deriving DecidableEq, Repr

/-- `ISR(USART_RX_vect)`: read UDR; append the byte at `rx_head` if the
buffer is not full (advance the head), drop it otherwise; if a receive
callback is registered, build the event whose data pointer is
`&rx_buffer[rx_head - 1]` with the updated `rx_head`. -/
def usart_rx_isr (d : Nat) (st : UartSt) : UartSt × Option UartRxEvent :=
  let data := u8 d
  let nextHead : Fin 64 := ⟨(st.rxHead.val + 1) % 64, by omega⟩
  let st1 :=
    if nextHead ≠ st.rxTail then
      { st with rxBuf := Function.update st.rxBuf st.rxHead data, rxHead := nextHead }
    else st
  let ev :=
    if st.callbacks.rxHandler ≠ none then
      some { dataIdx := (st1.rxHead.val : Int) - 1, size := 1,
             userData := st.callbacks.rxUserData }
    else none
  (st1, ev)

/-- A UART state about to wrap: head 63, tail 5, rx callback registered,
buffer zeroed. -/
def uartStWrap : UartSt :=
  { ubrrh := 0, ubrrl := 0, ucsra := 0, ucsrb := 0, ucsrc := 0,
    callbacks := { rxHandler := some 1, rxUserData := none,
                   txHandler := none, txUserData := none },
    rxBuf := fun _ => 0, rxHead := ⟨63, by omega⟩, rxTail := ⟨5, by omega⟩ }

/-- A UART state whose receive buffer is full: head 5, tail 6. -/
def uartStFull : UartSt :=
  { uartStWrap with rxHead := ⟨5, by omega⟩, rxTail := ⟨6, by omega⟩ }

/-- Claim C2 (refuted by the code): the receive ISR's event does not
always reference the just-received byte.  Wrap-around case (head 63,
tail 5): the byte 0xAA is stored at index 63, but the event's data
pointer is `&rx_buffer[-1]`, outside the buffer.  Full-buffer case (head
5, tail 6): the byte is dropped and the state unchanged, as claimed, yet
the callback still fires with a pointer to `rx_buffer[4]`, which holds
the stale byte 0, not the received 0xAA. -/
theorem uart_rx_isr_callback_pointer_bug :
    ((usart_rx_isr 0xAA uartStWrap).1.rxBuf ⟨63, by omega⟩ = 0xAA ∧
     (usart_rx_isr 0xAA uartStWrap).2 =
       some { dataIdx := -1, size := 1, userData := none }) ∧
    ((usart_rx_isr 0xAA uartStFull).1 = uartStFull ∧
     (usart_rx_isr 0xAA uartStFull).2 =
       some { dataIdx := 4, size := 1, userData := none } ∧
     uartStFull.rxBuf ⟨4, by omega⟩ = 0) := by
  exact ⟨⟨rfl, rfl⟩, rfl, rfl, rfl⟩

/-! ## ADC driver (src/platforms/avr/adc.c)

Register bit positions of the ATmega328 ADC. -/

def ADEN : Nat := 7
def ADSC : Nat := 6
def ADIE : Nat := 3
def REFS1 : Nat := 7
def REFS0 : Nat := 6

/-- `eer_adc_prescaler_t`. -/
inductive AdcPrescaler where
  | p2
  | p4
  | p8
  | p16
  | p32
  | p64
  | p128
deriving DecidableEq, Repr

/-- `eer_adc_reference_t`. -/
inductive AdcReference where
  | internal
  | external
  | vcc
deriving DecidableEq, Repr

/-- `eer_adc_mode_t`. -/
inductive AdcMode where
  | single
  | continuous
deriving DecidableEq, Repr

/-- `eer_adc_config_t`. -/
structure AdcConfig where
  prescaler : AdcPrescaler
  reference : AdcReference
  mode : AdcMode
deriving DecidableEq, Repr

/-- Driver state: ADMUX, ADCSRA and the static `adc_irq_handlers[8]`
table (handler and user-data slots per channel). -/
structure AdcSt where
  admux : Nat
  adcsra : Nat
  handlers : Fin 8 → Option Nat
  userData : Fin 8 → Option Nat

/-- `avr_adc_init` (adc.c lines 13-74). -/
def avr_adc_init (config : AdcConfig) (st : AdcSt) : HalStatus × AdcSt :=
  let st := { st with admux := bit REFS0 }
  let prescalerBits : Nat :=
    match config.prescaler with
    | .p2 => 1
    | .p4 => 2
    | .p8 => 3
    | .p16 => 4
    | .p32 => 5
    | .p64 => 6
    | .p128 => 7
  let st := { st with adcsra := u8 (bit ADEN ||| prescalerBits) }
  let st :=
    match config.reference with
    | .internal => { st with admux := u8 (st.admux ||| (bit REFS1 ||| bit REFS0)) }
    | .external => { st with admux := clear8 st.admux (bit REFS1 ||| bit REFS0) }
    | .vcc => { st with admux := u8 (clear8 st.admux (bit REFS1) ||| bit REFS0) }
  let st :=
    if config.mode = .continuous then
      { st with adcsra := u8 (st.adcsra ||| bit ADIE) }
    else st
  (.ok, st)

/-- `avr_adc_deinit` (adc.c lines 76-87). -/
def avr_adc_deinit (st : AdcSt) : HalStatus × AdcSt :=
  let st := { st with adcsra := clear8 st.adcsra (bit ADEN ||| bit ADIE) }
  (.ok, { st with handlers := fun _ => none, userData := fun _ => none })

/-- `avr_adc_register_callback` (adc.c lines 177-195).  The channel is
masked with 0x07 as in the C code. -/
def avr_adc_register_callback (channel : Nat) (handler ud : Option Nat)
    (st : AdcSt) : HalStatus × AdcSt :=
  if handler = none then (.invalidParam, st)
  else
    let ch : Fin 8 := ⟨channel % 8, by omega⟩
    let st := { st with
                  handlers := Function.update st.handlers ch handler
                  userData := Function.update st.userData ch ud }
    (.ok, { st with adcsra := u8 (st.adcsra ||| bit ADIE) })

/-- `avr_adc_unregister_callback` (adc.c lines 197-224): clear the slot,
then scan all eight slots and clear ADIE only when none is registered. -/
def avr_adc_unregister_callback (channel : Nat) (st : AdcSt) : HalStatus × AdcSt :=
  let ch : Fin 8 := ⟨channel % 8, by omega⟩
  let handlers := Function.update st.handlers ch none
  let ud := Function.update st.userData ch none
  let anyHandlers := decide (∃ i : Fin 8, handlers i ≠ none)
  let adcsra := if anyHandlers then st.adcsra else clear8 st.adcsra (bit ADIE)
  (.ok, { st with handlers := handlers, userData := ud, adcsra := adcsra })

/-- Claim C8: after a successful `unregister_callback(channel)`, the
channel's handler slot is cleared, ADIE (bit 3 of ADCSRA) ends up clear
exactly when no channel retains a handler, and if some channel retains a
handler then ADCSRA — and with it the set ADIE bit — is left untouched. -/
theorem adc_unregister_shared_interrupt (st : AdcSt) (channel : Nat)
    (hADIE : st.adcsra.testBit ADIE = true) :
    (avr_adc_unregister_callback channel st).1 = .ok ∧
    ((avr_adc_unregister_callback channel st).2).handlers ⟨channel % 8, by omega⟩ = none ∧
    (((avr_adc_unregister_callback channel st).2).adcsra.testBit ADIE = false ↔
      ∀ i : Fin 8, ((avr_adc_unregister_callback channel st).2).handlers i = none) ∧
    ((∃ i : Fin 8, ((avr_adc_unregister_callback channel st).2).handlers i ≠ none) →
      ((avr_adc_unregister_callback channel st).2).adcsra = st.adcsra) := by
  by_cases hany :
      ∃ i : Fin 8, Function.update st.handlers ⟨channel % 8, by omega⟩ none i ≠ none
  · have hdec : decide (∃ i : Fin 8,
        Function.update st.handlers ⟨channel % 8, by omega⟩ none i ≠ none) = true :=
      decide_eq_true hany
    refine ⟨?_, ?_, ?_, ?_⟩
    · simp [avr_adc_unregister_callback]
    · simp [avr_adc_unregister_callback]
    · simp only [avr_adc_unregister_callback, hdec, if_true]
      constructor
      · intro hbit
        rw [hADIE] at hbit
        exact absurd hbit (by simp)
      · intro hall
        obtain ⟨i, hi⟩ := hany
        exact absurd (hall i) hi
    · intro _
      simp [avr_adc_unregister_callback, hdec]
  · have hdec : decide (∃ i : Fin 8,
        Function.update st.handlers ⟨channel % 8, by omega⟩ none i ≠ none) = false :=
      decide_eq_false hany
    refine ⟨?_, ?_, ?_, ?_⟩
    · simp [avr_adc_unregister_callback]
    · simp [avr_adc_unregister_callback]
    · simp only [avr_adc_unregister_callback, hdec, if_false]
      have hmask : (255 ^^^ bit ADIE).testBit ADIE = false := by decide
      have hcleared : (clear8 st.adcsra (bit ADIE)).testBit ADIE = false := by
        simp [clear8, Nat.testBit_land, hmask]
      have hall : ∀ i : Fin 8,
          Function.update st.handlers ⟨channel % 8, by omega⟩ none i = none := by
        intro i
        by_contra h
        exact hany ⟨i, h⟩
      exact iff_of_true hcleared hall
    · intro hex
      exact absurd hex hany

/-- A sample ADC state with ADIE set and a handler on channel 0 only. -/
def adcStOne : AdcSt :=
  { admux := 0, adcsra := bit ADEN ||| bit ADIE,
    handlers := Function.update (fun _ => none) 0 (some 7),
    userData := fun _ => none }

/-- Witness for C8: unregistering the only registered channel clears its
slot and the shared ADIE bit. -/
theorem adc_unregister_shared_interrupt_witness :
    (avr_adc_unregister_callback 0 adcStOne).1 = .ok ∧
    ((avr_adc_unregister_callback 0 adcStOne).2).handlers ⟨0, by omega⟩ = none ∧
    ((avr_adc_unregister_callback 0 adcStOne).2).adcsra.testBit ADIE = false := by
  have h := adc_unregister_shared_interrupt adcStOne 0 (by decide)
  refine ⟨h.1, h.2.1, h.2.2.1.mpr ?_⟩
  intro i
  fin_cases i <;> rfl

/-! ## I2C driver state (src/platforms/avr/i2c.c: init/deinit/callbacks) -/

def TWINT : Nat := 7
def TWEA : Nat := 6
def TWSTA : Nat := 5
def TWSTO : Nat := 4
def TWEN : Nat := 2

/-- `eer_i2c_addr_mode_t`. -/
inductive I2cAddrMode where
  | sevenBit
  | tenBit
deriving DecidableEq, Repr

/-- `eer_i2c_speed_t`. -/
inductive I2cSpeed where
  | standard
  | fast
  | fastPlus
deriving DecidableEq, Repr

/-- `eer_i2c_config_t`. -/
structure I2cConfig where
  addrMode : I2cAddrMode
  speed : I2cSpeed
  clockHz : Nat
deriving DecidableEq, Repr

/-- Driver-level I2C state: TWBR, TWCR, the TWPS prescaler bits the
driver writes into TWSR, the static `i2c_callback` slot and the stored
configuration. -/
structure I2cDrvSt where
  twbr : Nat
  twcr : Nat
  twsrPrescaler : Nat
  handler : Option Nat
  userData : Option Nat
  currentConfig : I2cConfig
deriving DecidableEq, Repr

/-- `i2c_calculate_twbr` (i2c.c lines 39-57): returns the TWBR value
(computed in `unsigned long` with wrap at 2^32, stored into `uint8_t`)
and the TWPS bits written into TWSR.  `F_CPU` = 16 MHz. -/
def i2c_calculate_twbr (sclFreq prescaler : Nat) : Nat × Nat :=
  let pv :
      Nat × Nat :=
    match prescaler with
    | 0 => (1, 0)
    | 1 => (4, 1)
    | 2 => (16, 2)
    | 3 => (64, 3)
    | _ => (1, 0)
  let q := (16000000 / sclFreq + 4294967296 - 16) % 4294967296
  (u8 (q / (2 * pv.1)), pv.2)

/-- `avr_i2c_init` (i2c.c lines 244-283). -/
def avr_i2c_init (config : I2cConfig) (st : I2cDrvSt) : HalStatus × I2cDrvSt :=
  let st := { st with currentConfig := config }
  let sclFreq : Nat :=
    match config.speed with
    | .standard => 100000
    | .fast => 400000
    | .fastPlus => 1000000
  let sclFreq := if 0 < config.clockHz then config.clockHz else sclFreq
  let r := i2c_calculate_twbr sclFreq 0
  let st := { st with twsrPrescaler := r.2, twbr := r.1 }
  (.ok, { st with twcr := bit TWEN })

/-- `avr_i2c_deinit` (i2c.c lines 285-294). -/
def avr_i2c_deinit (st : I2cDrvSt) : HalStatus × I2cDrvSt :=
  let st := { st with twcr := 0 }
  (.ok, { st with handler := none, userData := none })

/-! ## SPI driver state (part_011: init/deinit/callbacks) -/

def SPIE : Nat := 7
def SPE : Nat := 6
def DORD : Nat := 5
def MSTR : Nat := 4
def CPOL : Nat := 3
def CPHA : Nat := 2
def SPR1 : Nat := 1
def SPR0 : Nat := 0
def SPI2X : Nat := 0
def SSB : Nat := 2
def MOSI : Nat := 3
def MISO : Nat := 4
def SCK : Nat := 5

/-- `eer_spi_mode_t` (the four CPOL/CPHA combinations). -/
inductive SpiMode where
  | m0
  | m1
  | m2
  | m3
deriving DecidableEq, Repr

/-- `eer_spi_bit_order_t`. -/
inductive SpiBitOrder where
  | msb
  | lsb
deriving DecidableEq, Repr

/-- `eer_spi_prescaler_t`. -/
inductive SpiPrescaler where
  | d2
  | d4
  | d8
  | d16
  | d32
  | d64
  | d128
deriving DecidableEq, Repr

/-- `eer_spi_config_t`. -/
structure SpiConfig where
  master : Bool
  mode : SpiMode
  bitOrder : SpiBitOrder
  prescaler : SpiPrescaler
deriving DecidableEq, Repr

/-- Driver-level SPI state: SPCR, SPSR, the DDR/PORT registers of the
SPI pins, the static `spi_callback` slot and the stored configuration. -/
structure SpiSt where
  spcr : Nat
  spsr : Nat
  ddr : Nat
  port : Nat
  handler : Option Nat
  userData : Option Nat
  currentConfig : SpiConfig
deriving DecidableEq, Repr

/-- `avr_spi_init` (part_011 lines 19-116). -/
def avr_spi_init (config : SpiConfig) (st : SpiSt) : HalStatus × SpiSt :=
  let st := { st with currentConfig := config }
  let st :=
    if config.master then
      let st := { st with ddr := u8 (st.ddr ||| bit MOSI) }
      let st := { st with ddr := u8 (st.ddr ||| bit SCK) }
      let st := { st with ddr := u8 (st.ddr ||| bit SSB) }
      let st := { st with port := u8 (st.port ||| bit SSB) }
      { st with ddr := clear8 st.ddr (bit MISO) }
    else
      let st := { st with ddr := u8 (st.ddr ||| bit MISO) }
      let st := { st with ddr := clear8 st.ddr (bit MOSI) }
      let st := { st with ddr := clear8 st.ddr (bit SCK) }
      { st with ddr := clear8 st.ddr (bit SSB) }
  let spcrValue : Nat := bit SPE
  let spcrValue := if config.master then spcrValue ||| bit MSTR else spcrValue
  let spcrValue :=
    if config.bitOrder = .lsb then spcrValue ||| bit DORD else spcrValue
  let spcrValue :=
    match config.mode with
    | .m0 => spcrValue
    | .m1 => spcrValue ||| bit CPHA
    | .m2 => spcrValue ||| bit CPOL
    | .m3 => spcrValue ||| (bit CPOL ||| bit CPHA)
  let spsrValue : Nat := 0
  let pair :
      Nat × Nat :=
    match config.prescaler with
    | .d2 => (spsrValue ||| bit SPI2X, spcrValue)
    | .d4 => (spsrValue, spcrValue)
    | .d8 => (spsrValue ||| bit SPI2X, spcrValue ||| bit SPR0)
    | .d16 => (spsrValue, spcrValue ||| bit SPR0)
    | .d32 => (spsrValue ||| bit SPI2X, spcrValue ||| bit SPR1)
    | .d64 => (spsrValue, spcrValue ||| bit SPR1)
    | .d128 => (spsrValue, spcrValue ||| (bit SPR1 ||| bit SPR0))
  (.ok, { st with spcr := u8 pair.2, spsr := u8 pair.1 })

/-- `avr_spi_deinit` (part_011 lines 118-127). -/
def avr_spi_deinit (st : SpiSt) : HalStatus × SpiSt :=
  let st := { st with spcr := 0 }
  (.ok, { st with handler := none, userData := none })

/-- Claim C9: for each modelled peripheral (UART, Timer, ADC, I2C, SPI),
`init` followed immediately by `deinit` leaves every callback handler
slot and user-data slot of the driver's static table NULL, from any
prior driver state. -/
theorem init_then_deinit_clears_callbacks
    (ucfg : UartConfig) (ust : UartSt) (tcfg : TimerConfig) (tst : TimerSt)
    (acfg : AdcConfig) (ast : AdcSt) (icfg : I2cConfig) (ist : I2cDrvSt)
    (scfg : SpiConfig) (sst : SpiSt) :
    ((avr_uart_deinit (avr_uart_init ucfg ust).2).2).callbacks =
      { rxHandler := none, rxUserData := none,
        txHandler := none, txUserData := none } ∧
    ((avr_timer_deinit (avr_timer_init tcfg tst).2).2).callbacks =
      { overflowHandler := none, overflowUserData := none,
        compareAHandler := none, compareAUserData := none,
        compareBHandler := none, compareBUserData := none,
        captureHandler := none, captureUserData := none } ∧
    (∀ i : Fin 8,
      ((avr_adc_deinit (avr_adc_init acfg ast).2).2).handlers i = none ∧
      ((avr_adc_deinit (avr_adc_init acfg ast).2).2).userData i = none) ∧
    ((avr_i2c_deinit (avr_i2c_init icfg ist).2).2).handler = none ∧
    ((avr_i2c_deinit (avr_i2c_init icfg ist).2).2).userData = none ∧
    ((avr_spi_deinit (avr_spi_init scfg sst).2).2).handler = none ∧
    ((avr_spi_deinit (avr_spi_init scfg sst).2).2).userData = none :=
  ⟨rfl, rfl, fun _ => ⟨rfl, rfl⟩, rfl, rfl, rfl, rfl⟩

/-! ## I2C master transactions (src/platforms/avr/i2c.c lines 60-485)

The hardware is abstracted by a stream of responses to the TWINT poll
loop in `i2c_wait_for_completion`: either the loop ends with TWINT set
and given TWSR/TWDR register contents, or the loop's timeout branch is
taken.  (With the placeholder zero time source that timeout branch is in
fact unreachable — the loop has exactly the shape settled by
`uart_wait_flag_stuck` — so the `timedOut` response over-approximates the
code's error outcomes; every branch of the C code is still present.)
Register writes are recorded most-recent-first in a trace. -/

/-- Response of the I2C hardware to one TWINT poll loop. -/
inductive I2cWait where
  | timedOut
  | ready (twsr twdr : Nat)
deriving DecidableEq, Repr

/-- A write to an I2C hardware register. -/
inductive I2cRegWrite where
  | twcr (v : Nat)
  | twdr (v : Nat)
deriving DecidableEq, Repr

/-- Bus-level I2C state: the response stream with the count of waits
performed so far, the observable TWSR/TWDR contents, and the trace of
register writes (most recent first). -/
structure I2cBusSt where
  responses : Nat → I2cWait
  waits : Nat
  twsr : Nat
  twdr : Nat
  writes : List I2cRegWrite

/-- TWCR value sent for START: `(1<<TWINT) | (1<<TWSTA) | (1<<TWEN)`. -/
def i2cStartCmd : Nat := bit TWINT ||| bit TWSTA ||| bit TWEN

/-- TWCR value sent for STOP: `(1<<TWINT) | (1<<TWSTO) | (1<<TWEN)`. -/
def i2cStopCmd : Nat := bit TWINT ||| bit TWSTO ||| bit TWEN

/-- TWCR value that just clears TWINT: `(1<<TWINT) | (1<<TWEN)`. -/
def i2cGoCmd : Nat := bit TWINT ||| bit TWEN

/-- TWCR value for a receive with ACK: `(1<<TWINT) | (1<<TWEN) | (1<<TWEA)`. -/
def i2cAckCmd : Nat := bit TWINT ||| bit TWEN ||| bit TWEA

/-- `*i2c0.twcr = v`. -/
def twcrWrite (v : Nat) (st : I2cBusSt) : I2cBusSt :=
  { st with writes := .twcr (u8 v) :: st.writes }

/-- `*i2c0.twdr = v`. -/
def twdrStore (v : Nat) (st : I2cBusSt) : I2cBusSt :=
  { st with twdr := u8 v, writes := .twdr (u8 v) :: st.writes }

/-- `i2c_wait_for_completion` (i2c.c lines 64-78): poll TWINT, consuming
the next hardware response. -/
def i2c_wait_for_completion (st : I2cBusSt) : HalStatus × I2cBusSt :=
  match st.responses st.waits with
  | .timedOut => (.timeout, { st with waits := st.waits + 1 })
  | .ready s d =>
      (.ok, { st with waits := st.waits + 1, twsr := u8 s, twdr := u8 d })

/-- `i2c_start` (i2c.c lines 85-100): send START, wait, check for status
code 0x08 (`I2C_START_TRANSMITTED`). -/
def i2c_start (st : I2cBusSt) : HalStatus × I2cBusSt :=
  let st := twcrWrite i2cStartCmd st
  let r := i2c_wait_for_completion st
  if r.1 ≠ .ok then r
  else if r.2.twsr &&& 0xF8 ≠ 0x08 then (.error, r.2)
  else (.ok, r.2)

/-- `i2c_restart` (i2c.c lines 107-122): same write as START, expected
status code 0x10 (`I2C_RESTART_TRANSMITTED`). -/
def i2c_restart (st : I2cBusSt) : HalStatus × I2cBusSt :=
  let st := twcrWrite i2cStartCmd st
  let r := i2c_wait_for_completion st
  if r.1 ≠ .ok then r
  else if r.2.twsr &&& 0xF8 ≠ 0x10 then (.error, r.2)
  else (.ok, r.2)

/-- `i2c_stop` (i2c.c lines 128-136): send STOP; no TWINT wait follows. -/
def i2c_stop (st : I2cBusSt) : HalStatus × I2cBusSt :=
  (.ok, twcrWrite i2cStopCmd st)

/-- `i2c_send_address` (i2c.c lines 146-181): 10-bit addressing is
rejected as NOT_SUPPORTED before touching the bus; otherwise load
`(address << 1) | rw` into TWDR, clear TWINT, wait, and check for 0x40
(`I2C_SLA_R_ACK`) or 0x18 (`I2C_SLA_W_ACK`). -/
def i2c_send_address (cfg : I2cConfig) (address : Nat) (read : Bool)
    (st : I2cBusSt) : HalStatus × I2cBusSt :=
  if cfg.addrMode = .tenBit then (.notSupported, st)
  else
    let st := twdrStore ((address <<< 1) ||| (if read then 1 else 0)) st
    let st := twcrWrite i2cGoCmd st
    let r := i2c_wait_for_completion st
    if r.1 ≠ .ok then r
    else
      let expected : Nat := if read then 0x40 else 0x18
      if r.2.twsr &&& 0xF8 ≠ expected then (.error, r.2)
      else (.ok, r.2)

/-- `i2c_send_data` (i2c.c lines 189-210): load TWDR, clear TWINT, wait,
check for 0x28 (`I2C_DATA_TRANSMITTED_ACK`). -/
def i2c_send_data (d : Nat) (st : I2cBusSt) : HalStatus × I2cBusSt :=
  let st := twdrStore d st
  let st := twcrWrite i2cGoCmd st
  let r := i2c_wait_for_completion st
  if r.1 ≠ .ok then r
  else if r.2.twsr &&& 0xF8 ≠ 0x28 then (.error, r.2)
  else (.ok, r.2)

/-- `i2c_receive_data` (i2c.c lines 219-255): clear TWINT with or without
TWEA, wait, check for 0x50/0x58 (data received with ACK/NACK), then read
TWDR.  The returned byte is meaningful only on OK. -/
def i2c_receive_data (sendAck : Bool) (st : I2cBusSt) :
    HalStatus × Nat × I2cBusSt :=
  let st := twcrWrite (if sendAck then i2cAckCmd else i2cGoCmd) st
  let r := i2c_wait_for_completion st
  if r.1 ≠ .ok then (r.1, 0, r.2)
  else
    let expected : Nat := if sendAck then 0x50 else 0x58
    if r.2.twsr &&& 0xF8 ≠ expected then (.error, 0, r.2)
    else (.ok, r.2.twdr, r.2)

/-- The data loop of `avr_i2c_master_transmit` (i2c.c lines 322-328):
on a failed byte, issue STOP and return the failing status. -/
def i2c_tx_loop : List Nat → I2cBusSt → HalStatus × I2cBusSt
  | [], st => (.ok, st)
  | d :: rest, st =>
    let r := i2c_send_data d st
    if r.1 ≠ .ok then (r.1, (i2c_stop r.2).2)
    else i2c_tx_loop rest r.2

/-- The data loop of `avr_i2c_master_receive` (i2c.c lines 370-380):
ACK every byte but the last; on failure, issue STOP and return the
failing status. -/
def i2c_rx_loop : Nat → I2cBusSt → List Nat → HalStatus × List Nat × I2cBusSt
  | 0, st, acc => (.ok, acc, st)
  | n + 1, st, acc =>
    let sendAck := n != 0
    let r := i2c_receive_data sendAck st
    if r.1 ≠ .ok then (r.1, acc, (i2c_stop r.2.2).2)
    else i2c_rx_loop n r.2.2 (acc ++ [r.2.1])

/-- `eer_i2c_transfer_event_t` as built by the master operations. -/
structure I2cEvent where
  address : Nat
  txData : Option (List Nat)
  rxData : Option (List Nat)
  size : Nat
  userData : Option Nat
deriving DecidableEq, Repr

/-- `avr_i2c_master_transmit` (i2c.c lines 296-346). -/
def avr_i2c_master_transmit (cfg : I2cConfig) (handler ud : Option Nat)
    (address : Nat) (data : List Nat) (st : I2cBusSt) :
    HalStatus × I2cBusSt × Option I2cEvent :=
  if data = [] then (.invalidParam, st, none)
  else
    let r1 := i2c_start st
    if r1.1 ≠ .ok then (r1.1, (i2c_stop r1.2).2, none)
    else
      let r2 := i2c_send_address cfg address false r1.2
      if r2.1 ≠ .ok then (r2.1, (i2c_stop r2.2).2, none)
      else
        let r3 := i2c_tx_loop data r2.2
        if r3.1 ≠ .ok then (r3.1, r3.2, none)
        else
          let st4 := (i2c_stop r3.2).2
          let ev :=
            if handler ≠ none then
              some { address := address, txData := some data, rxData := none,
                     size := data.length, userData := ud }
            else (none : Option I2cEvent)
          (.ok, st4, ev)

/-- `avr_i2c_master_receive` (i2c.c lines 348-398).  Also returns the
received bytes. -/
def avr_i2c_master_receive (cfg : I2cConfig) (handler ud : Option Nat)
    (address size : Nat) (st : I2cBusSt) :
    HalStatus × List Nat × I2cBusSt × Option I2cEvent :=
  if size = 0 then (.invalidParam, [], st, none)
  else
    let r1 := i2c_start st
    if r1.1 ≠ .ok then (r1.1, [], (i2c_stop r1.2).2, none)
    else
      let r2 := i2c_send_address cfg address true r1.2
      if r2.1 ≠ .ok then (r2.1, [], (i2c_stop r2.2).2, none)
      else
        let r3 := i2c_rx_loop size r2.2 []
        if r3.1 ≠ .ok then (r3.1, r3.2.1, r3.2.2, none)
        else
          let st4 := (i2c_stop r3.2.2).2
          let ev :=
            if handler ≠ none then
              some { address := address, txData := none, rxData := some r3.2.1,
                     size := size, userData := ud }
            else (none : Option I2cEvent)
          (.ok, r3.2.1, st4, ev)

/-- `avr_i2c_master_transmit_receive` (i2c.c lines 400-474): write phase,
repeated start, read phase. -/
def avr_i2c_master_transmit_receive (cfg : I2cConfig) (handler ud : Option Nat)
    (address : Nat) (txData : List Nat) (rxSize : Nat) (st : I2cBusSt) :
    HalStatus × List Nat × I2cBusSt × Option I2cEvent :=
  if txData = [] ∨ rxSize = 0 then (.invalidParam, [], st, none)
  else
    let r1 := i2c_start st
    if r1.1 ≠ .ok then (r1.1, [], (i2c_stop r1.2).2, none)
    else
      let r2 := i2c_send_address cfg address false r1.2
      if r2.1 ≠ .ok then (r2.1, [], (i2c_stop r2.2).2, none)
      else
        let r3 := i2c_tx_loop txData r2.2
        if r3.1 ≠ .ok then (r3.1, [], r3.2, none)
        else
          let r4 := i2c_restart r3.2
          if r4.1 ≠ .ok then (r4.1, [], (i2c_stop r4.2).2, none)
          else
            let r5 := i2c_send_address cfg address true r4.2
            if r5.1 ≠ .ok then (r5.1, [], (i2c_stop r5.2).2, none)
            else
              let r6 := i2c_rx_loop rxSize r5.2 []
              if r6.1 ≠ .ok then (r6.1, r6.2.1, r6.2.2, none)
              else
                let st7 := (i2c_stop r6.2.2).2
                let ev :=
                  if handler ≠ none then
                    some { address := address, txData := some txData,
                           rxData := some r6.2.1,
                           size := txData.length + rxSize, userData := ud }
                  else (none : Option I2cEvent)
                (.ok, r6.2.1, st7, ev)

/-- After `i2c_stop` the most recent register write is the STOP command. -/
theorem i2c_stop_head (st : I2cBusSt) :
    ((i2c_stop st).2).writes.head? = some (.twcr i2cStopCmd) := rfl

/-- If the transmit data loop fails, its final state ends with STOP. -/
theorem i2c_tx_loop_error_stop (data : List Nat) (st : I2cBusSt)
    (h : (i2c_tx_loop data st).1 ≠ .ok) :
    ((i2c_tx_loop data st).2).writes.head? = some (.twcr i2cStopCmd) := by
  induction data generalizing st with
  | nil => exact absurd rfl h
  | cons d rest ih =>
    by_cases hs : (i2c_send_data d st).1 = .ok
    · have e : i2c_tx_loop (d :: rest) st = i2c_tx_loop rest (i2c_send_data d st).2 := by
        simp [i2c_tx_loop, hs]
      rw [e] at h ⊢
      exact ih _ h
    · have e : i2c_tx_loop (d :: rest) st =
          ((i2c_send_data d st).1, (i2c_stop (i2c_send_data d st).2).2) := by
        simp [i2c_tx_loop, hs]
      rw [e]
      exact i2c_stop_head _

/-- If the receive data loop fails, its final state ends with STOP. -/
theorem i2c_rx_loop_error_stop (n : Nat) (st : I2cBusSt) (acc : List Nat)
    (h : (i2c_rx_loop n st acc).1 ≠ .ok) :
    ((i2c_rx_loop n st acc).2.2).writes.head? = some (.twcr i2cStopCmd) := by
  induction n generalizing st acc with
  | zero => exact absurd rfl h
  | succ n ih =>
    by_cases hs : (i2c_receive_data (n != 0) st).1 = .ok
    · have e : i2c_rx_loop (n + 1) st acc =
          i2c_rx_loop n (i2c_receive_data (n != 0) st).2.2
            (acc ++ [(i2c_receive_data (n != 0) st).2.1]) := by
        simp [i2c_rx_loop, hs]
      rw [e] at h ⊢
      exact ih _ _ h
    · have e : i2c_rx_loop (n + 1) st acc =
          ((i2c_receive_data (n != 0) st).1, acc,
            (i2c_stop (i2c_receive_data (n != 0) st).2.2).2) := by
        simp [i2c_rx_loop, hs]
      rw [e]
      exact i2c_stop_head _

/-- Claim C1: for each I2C master operation with non-degenerate sizes, if
the operation returns a status other than OK, the very last register
write it performed was the STOP command — no error path returns before
STOP has been issued. -/
theorem i2c_error_paths_issue_stop (cfg : I2cConfig) (handler ud : Option Nat)
    (address : Nat) (data : List Nat) (size : Nat) (st : I2cBusSt)
    (hdata : data ≠ []) (hsize : size ≠ 0) :
    ((avr_i2c_master_transmit cfg handler ud address data st).1 ≠ .ok →
      ((avr_i2c_master_transmit cfg handler ud address data st).2.1).writes.head? =
        some (.twcr i2cStopCmd)) ∧
    ((avr_i2c_master_receive cfg handler ud address size st).1 ≠ .ok →
      ((avr_i2c_master_receive cfg handler ud address size st).2.2.1).writes.head? =
        some (.twcr i2cStopCmd)) ∧
    ((avr_i2c_master_transmit_receive cfg handler ud address data size st).1 ≠ .ok →
      ((avr_i2c_master_transmit_receive cfg handler ud address data size
          st).2.2.1).writes.head? = some (.twcr i2cStopCmd)) := by
  refine ⟨?_, ?_, ?_⟩
  · intro hne
    by_cases h1 : (i2c_start st).1 = .ok
    · by_cases h2 : (i2c_send_address cfg address false (i2c_start st).2).1 = .ok
      · by_cases h3 : (i2c_tx_loop data
            (i2c_send_address cfg address false (i2c_start st).2).2).1 = .ok
        · exact absurd (by simp [avr_i2c_master_transmit, hdata, h1, h2, h3]) hne
        · have e : (avr_i2c_master_transmit cfg handler ud address data st).2.1 =
              (i2c_tx_loop data
                (i2c_send_address cfg address false (i2c_start st).2).2).2 := by
            simp [avr_i2c_master_transmit, hdata, h1, h2, h3]
          rw [e]
          exact i2c_tx_loop_error_stop _ _ h3
      · have e : (avr_i2c_master_transmit cfg handler ud address data st).2.1 =
            (i2c_stop (i2c_send_address cfg address false (i2c_start st).2).2).2 := by
          simp [avr_i2c_master_transmit, hdata, h1, h2]
        rw [e]
        exact i2c_stop_head _
    · have e : (avr_i2c_master_transmit cfg handler ud address data st).2.1 =
          (i2c_stop (i2c_start st).2).2 := by
        simp [avr_i2c_master_transmit, hdata, h1]
      rw [e]
      exact i2c_stop_head _
  · intro hne
    by_cases h1 : (i2c_start st).1 = .ok
    · by_cases h2 : (i2c_send_address cfg address true (i2c_start st).2).1 = .ok
      · by_cases h3 : (i2c_rx_loop size
            (i2c_send_address cfg address true (i2c_start st).2).2 []).1 = .ok
        · exact absurd (by simp [avr_i2c_master_receive, hsize, h1, h2, h3]) hne
        · have e : (avr_i2c_master_receive cfg handler ud address size st).2.2.1 =
              (i2c_rx_loop size
                (i2c_send_address cfg address true (i2c_start st).2).2 []).2.2 := by
            simp [avr_i2c_master_receive, hsize, h1, h2, h3]
          rw [e]
          exact i2c_rx_loop_error_stop _ _ _ h3
      · have e : (avr_i2c_master_receive cfg handler ud address size st).2.2.1 =
            (i2c_stop (i2c_send_address cfg address true (i2c_start st).2).2).2 := by
          simp [avr_i2c_master_receive, hsize, h1, h2]
        rw [e]
        exact i2c_stop_head _
    · have e : (avr_i2c_master_receive cfg handler ud address size st).2.2.1 =
          (i2c_stop (i2c_start st).2).2 := by
        simp [avr_i2c_master_receive, hsize, h1]
      rw [e]
      exact i2c_stop_head _
  · intro hne
    have hor : ¬ (data = [] ∨ size = 0) := by
      rintro (h | h)
      · exact hdata h
      · exact hsize h
    by_cases h1 : (i2c_start st).1 = .ok
    · by_cases h2 : (i2c_send_address cfg address false (i2c_start st).2).1 = .ok
      · by_cases h3 : (i2c_tx_loop data
            (i2c_send_address cfg address false (i2c_start st).2).2).1 = .ok
        · by_cases h4 : (i2c_restart (i2c_tx_loop data
              (i2c_send_address cfg address false (i2c_start st).2).2).2).1 = .ok
          · by_cases h5 : (i2c_send_address cfg address true
                (i2c_restart (i2c_tx_loop data
                  (i2c_send_address cfg address false (i2c_start st).2).2).2).2).1 = .ok
            · by_cases h6 : (i2c_rx_loop size
                  (i2c_send_address cfg address true
                    (i2c_restart (i2c_tx_loop data
                      (i2c_send_address cfg address false
                        (i2c_start st).2).2).2).2).2 []).1 = .ok
              · exact absurd (by
                  simp [avr_i2c_master_transmit_receive, hor, h1, h2, h3, h4, h5, h6]) hne
              · have e : (avr_i2c_master_transmit_receive cfg handler ud address data
                    size st).2.2.1 =
                    (i2c_rx_loop size
                      (i2c_send_address cfg address true
                        (i2c_restart (i2c_tx_loop data
                          (i2c_send_address cfg address false
                            (i2c_start st).2).2).2).2).2 []).2.2 := by
                  simp [avr_i2c_master_transmit_receive, hor, h1, h2, h3, h4, h5, h6]
                rw [e]
                exact i2c_rx_loop_error_stop _ _ _ h6
            · have e : (avr_i2c_master_transmit_receive cfg handler ud address data
                  size st).2.2.1 =
                  (i2c_stop (i2c_send_address cfg address true
                    (i2c_restart (i2c_tx_loop data
                      (i2c_send_address cfg address false
                        (i2c_start st).2).2).2).2).2).2 := by
                simp [avr_i2c_master_transmit_receive, hor, h1, h2, h3, h4, h5]
              rw [e]
              exact i2c_stop_head _
          · have e : (avr_i2c_master_transmit_receive cfg handler ud address data
                size st).2.2.1 =
                (i2c_stop (i2c_restart (i2c_tx_loop data
                  (i2c_send_address cfg address false (i2c_start st).2).2).2).2).2 := by
              simp [avr_i2c_master_transmit_receive, hor, h1, h2, h3, h4]
            rw [e]
            exact i2c_stop_head _
        · have e : (avr_i2c_master_transmit_receive cfg handler ud address data
              size st).2.2.1 =
              (i2c_tx_loop data
                (i2c_send_address cfg address false (i2c_start st).2).2).2 := by
            simp [avr_i2c_master_transmit_receive, hor, h1, h2, h3]
          rw [e]
          exact i2c_tx_loop_error_stop _ _ h3
      · have e : (avr_i2c_master_transmit_receive cfg handler ud address data
            size st).2.2.1 =
            (i2c_stop (i2c_send_address cfg address false (i2c_start st).2).2).2 := by
          simp [avr_i2c_master_transmit_receive, hor, h1, h2]
        rw [e]
        exact i2c_stop_head _
    · have e : (avr_i2c_master_transmit_receive cfg handler ud address data
          size st).2.2.1 = (i2c_stop (i2c_start st).2).2 := by
        simp [avr_i2c_master_transmit_receive, hor, h1]
      rw [e]
      exact i2c_stop_head _

/-- A 7-bit standard-speed I2C configuration. -/
def i2cCfg7 : I2cConfig := { addrMode := .sevenBit, speed := .standard, clockHz := 0 }

/-- A bus whose every wait ends with TWSR = 0: the START check fails and
every operation aborts with ERROR. -/
def i2cBusNak : I2cBusSt :=
  { responses := fun _ => .ready 0 0, waits := 0, twsr := 0, twdr := 0, writes := [] }

/-- Witness for C1: on a bus answering every phase with status 0, all
three master operations fail and their final register write is STOP. -/
theorem i2c_error_paths_issue_stop_witness :
    ((avr_i2c_master_transmit i2cCfg7 none none 0x50 [0xAA] i2cBusNak).2.1).writes.head? =
      some (.twcr i2cStopCmd) ∧
    ((avr_i2c_master_receive i2cCfg7 none none 0x50 1 i2cBusNak).2.2.1).writes.head? =
      some (.twcr i2cStopCmd) ∧
    ((avr_i2c_master_transmit_receive i2cCfg7 none none 0x50 [0xAA] 1
        i2cBusNak).2.2.1).writes.head? = some (.twcr i2cStopCmd) := by
  have h := i2c_error_paths_issue_stop i2cCfg7 none none 0x50 [0xAA] 1 i2cBusNak
    (by decide) (by decide)
  exact ⟨h.1 (by decide), h.2.1 (by decide), h.2.2 (by decide)⟩

/-! ## I2C bus scan (src/platforms/avr/i2c.c lines 487-531)

Here the hardware environment is a function from a candidate address to
the two poll-loop responses of its attempt (the START wait and the
address wait): each attempt starts a fresh transaction, so its responses
depend only on the candidate address. -/

/-- The reserved-address test of the scan loop:
`addr < 8 || (addr >= 0x78 && addr <= 0x7F)`. -/
def i2c_reserved_addr (a : Nat) : Bool :=
  decide (a < 8 ∨ (0x78 ≤ a ∧ a ≤ 0x7F))

/-- One scan attempt (the loop body for a non-reserved candidate):
START, then `TWDR = (addr << 1) | 0`, clear TWINT, wait, record on
status 0x18 (`I2C_SLA_W_ACK`), and STOP on every path.  Returns whether
the candidate acknowledged and the chronological register-write trace of
the attempt. -/
def scan_attempt (bus : Nat → I2cWait × I2cWait) (a : Nat) :
    Bool × List I2cRegWrite :=
  let st0 : I2cBusSt :=
    { responses := fun n => if n = 0 then (bus a).1 else (bus a).2,
      waits := 0, twsr := 0, twdr := 0, writes := [] }
  let r1 := i2c_start st0
  if r1.1 ≠ .ok then (false, ((i2c_stop r1.2).2).writes.reverse)
  else
    let st := twdrStore ((a <<< 1) ||| 0) r1.2
    let st := twcrWrite i2cGoCmd st
    let r2 := i2c_wait_for_completion st
    if r2.1 ≠ .ok then (false, ((i2c_stop r2.2).2).writes.reverse)
    else
      let found := r2.2.twsr &&& 0xF8 = 0x18
      let st3 := (i2c_stop r2.2).2
      (decide found, st3.writes.reverse)

/-- The scan loop (i2c.c lines 495-526): iterate the remaining candidate
addresses while fewer than `maxDevices` devices are recorded, skipping
reserved addresses without touching the bus. -/
def avr_i2c_scan_loop (bus : Nat → I2cWait × I2cWait) (maxDevices : Nat) :
    List Nat → Nat → List Nat → List I2cRegWrite →
      List Nat × Nat × List I2cRegWrite
  | [], count, devices, trace => (devices, count, trace)
  | a :: rest, count, devices, trace =>
    if maxDevices ≤ count then (devices, count, trace)
    else if i2c_reserved_addr a then
      avr_i2c_scan_loop bus maxDevices rest count devices trace
    else
      let r := scan_attempt bus a
      if r.1 then
        avr_i2c_scan_loop bus maxDevices rest (count + 1) (devices ++ [a])
          (trace ++ r.2)
      else
        avr_i2c_scan_loop bus maxDevices rest count devices (trace ++ r.2)

/-- `avr_i2c_scan` (i2c.c lines 487-531): returns the status, the
recorded device addresses, `*found_devices`, and the register-write
trace of the whole scan. -/
def avr_i2c_scan (bus : Nat → I2cWait × I2cWait) (maxDevices : Nat) :
    HalStatus × List Nat × Nat × List I2cRegWrite :=
  if maxDevices = 0 then (.invalidParam, [], 0, [])
  else
    let r := avr_i2c_scan_loop bus maxDevices (List.range 128) 0 [] []
    (.ok, r.1, r.2.1, r.2.2)

/-- Specification-level acknowledgment: the bus answers the START wait
with status 0x08 and the write-address wait with status 0x18. -/
def scan_acked (bus : Nat → I2cWait × I2cWait) (a : Nat) : Bool :=
  match bus a with
  | (.ready s1 _, .ready s2 _) =>
      decide (u8 s1 &&& 0xF8 = 0x08) && decide (u8 s2 &&& 0xF8 = 0x18)
  | _ => false

/-- The candidates the scan actually attempts on the bus: the
non-reserved addresses encountered while fewer than `maxDevices`
acknowledging candidates have been seen. -/
def scan_attempted (bus : Nat → I2cWait × I2cWait) (maxDevices : Nat) :
    List Nat → Nat → List Nat
  | [], _ => []
  | a :: rest, count =>
    if maxDevices ≤ count then []
    else if i2c_reserved_addr a then scan_attempted bus maxDevices rest count
    else a :: scan_attempted bus maxDevices rest
      (count + if scan_acked bus a then 1 else 0)

/-- An attempt records its candidate exactly when the bus acknowledges
the write-address phase. -/
theorem scan_attempt_found (bus : Nat → I2cWait × I2cWait) (a : Nat) :
    (scan_attempt bus a).1 = scan_acked bus a := by
  rcases hb : bus a with ⟨o1, o2⟩
  cases o1 with
  | timedOut =>
      simp [scan_attempt, scan_acked, hb, i2c_start, i2c_wait_for_completion,
        twcrWrite, twdrStore, i2c_stop]
  | ready s1 d1 =>
      by_cases h1 : u8 s1 &&& 0xF8 = 0x08
      · cases o2 with
        | timedOut =>
            simp [scan_attempt, scan_acked, hb, i2c_start, i2c_wait_for_completion,
              twcrWrite, twdrStore, i2c_stop, h1]
        | ready s2 d2 =>
            by_cases h2 : u8 s2 &&& 0xF8 = 0x18
            · simp [scan_attempt, scan_acked, hb, i2c_start,
                i2c_wait_for_completion, twcrWrite, twdrStore, i2c_stop, h1, h2]
            · simp [scan_attempt, scan_acked, hb, i2c_start,
                i2c_wait_for_completion, twcrWrite, twdrStore, i2c_stop, h1, h2]
      · cases o2 <;>
          simp [scan_attempt, scan_acked, hb, i2c_start, i2c_wait_for_completion,
            twcrWrite, twdrStore, i2c_stop, h1]

/-- `u8` is the identity on the 8-bit STOP command value. -/
theorem u8_i2cStopCmd : u8 i2cStopCmd = i2cStopCmd := rfl

/-- Every attempt ends with the STOP command as its last register write. -/
theorem scan_attempt_ends_with_stop (bus : Nat → I2cWait × I2cWait) (a : Nat) :
    (scan_attempt bus a).2.getLast? = some (.twcr i2cStopCmd) := by
  rcases hb : bus a with ⟨o1, o2⟩
  cases o1 with
  | timedOut =>
      simp [scan_attempt, hb, i2c_start, i2c_wait_for_completion,
        twcrWrite, twdrStore, i2c_stop, u8_i2cStopCmd]
  | ready s1 d1 =>
      by_cases h1 : u8 s1 &&& 0xF8 = 0x08
      · cases o2 with
        | timedOut =>
            simp [scan_attempt, hb, i2c_start, i2c_wait_for_completion,
              twcrWrite, twdrStore, i2c_stop, u8_i2cStopCmd, h1]
        | ready s2 d2 =>
            by_cases h2 : u8 s2 &&& 0xF8 = 0x18
            · simp [scan_attempt, hb, i2c_start, i2c_wait_for_completion,
                twcrWrite, twdrStore, i2c_stop, u8_i2cStopCmd, h1, h2]
            · simp [scan_attempt, hb, i2c_start, i2c_wait_for_completion,
                twcrWrite, twdrStore, i2c_stop, u8_i2cStopCmd, h1, h2]
      · cases o2 <;>
          simp [scan_attempt, hb, i2c_start, i2c_wait_for_completion,
            twcrWrite, twdrStore, i2c_stop, u8_i2cStopCmd, h1]

/-- No reserved address is ever attempted. -/
theorem scan_attempted_not_reserved (bus : Nat → I2cWait × I2cWait)
    (maxDevices : Nat) (l : List Nat) :
    ∀ (count : Nat) (a : Nat), a ∈ scan_attempted bus maxDevices l count →
      i2c_reserved_addr a = false := by
  induction l with
  | nil => intro count a h; simp [scan_attempted] at h
  | cons b rest ih =>
    intro count a h
    by_cases hc : maxDevices ≤ count
    · simp [scan_attempted, hc] at h
    · by_cases hres : i2c_reserved_addr b
      · simp only [scan_attempted, if_neg hc, if_pos hres] at h
        exact ih count a h
      · simp only [scan_attempted, if_neg hc, if_neg hres, List.mem_cons] at h
        rcases h with h | h
        · subst h; simpa using hres
        · exact ih _ a h

/-- The scan loop computes: the recorded devices are the next
acknowledging non-reserved candidates up to the remaining budget, the
count grows accordingly, and the trace extends by the attempt traces of
exactly the attempted candidates. -/
theorem scan_loop_spec (bus : Nat → I2cWait × I2cWait) (maxDevices : Nat)
    (l : List Nat) :
    ∀ (count : Nat) (devices : List Nat) (trace : List I2cRegWrite),
      avr_i2c_scan_loop bus maxDevices l count devices trace =
        (devices ++ ((l.filter fun a => !i2c_reserved_addr a && scan_acked bus a).take
            (maxDevices - count)),
         count + ((l.filter fun a => !i2c_reserved_addr a && scan_acked bus a).take
            (maxDevices - count)).length,
         trace ++ ((scan_attempted bus maxDevices l count).map
            (fun a => (scan_attempt bus a).2)).flatten) := by
  induction l with
  | nil =>
    intro count devices trace
    simp [avr_i2c_scan_loop, scan_attempted]
  | cons a rest ih =>
    intro count devices trace
    by_cases hc : maxDevices ≤ count
    · have h0 : maxDevices - count = 0 := by omega
      simp [avr_i2c_scan_loop, scan_attempted, hc, h0]
    · by_cases hres : i2c_reserved_addr a
      · simp [avr_i2c_scan_loop, scan_attempted, hc, hres, ih]
      · by_cases hack : scan_acked bus a
        · have hfound : (scan_attempt bus a).1 = true := by
            rw [scan_attempt_found]; exact hack
          obtain ⟨k, hk⟩ : ∃ k, maxDevices - count = k + 1 :=
            ⟨maxDevices - count - 1, by omega⟩
          have hk2 : maxDevices - (count + 1) = k := by omega
          simp only [avr_i2c_scan_loop, scan_attempted, if_neg hc, if_pos, hres,
            Bool.false_eq_true, if_false, hfound, if_true, hack,
            List.filter_cons, Bool.not_false, Bool.true_and, hk,
            List.take_succ_cons, List.length_cons, ih, hk2,
            List.map_cons, List.flatten_cons, Prod.mk.injEq]
          refine ⟨by simp, by omega, by simp [List.append_assoc]⟩
        · have hfound : (scan_attempt bus a).1 = false := by
            rw [scan_attempt_found]; exact Bool.eq_false_iff.mpr hack
          simp only [avr_i2c_scan_loop, scan_attempted, if_neg hc, hres,
            Bool.false_eq_true, if_false, hfound, hack, if_true, ih,
            List.filter_cons, Bool.not_false, Bool.true_and,
            List.map_cons, List.flatten_cons, Prod.mk.injEq]
          refine ⟨by simp, by simp, by simp [List.append_assoc]⟩

/-- Claim C5: `scan` over the candidate list 0..127 returns OK, reports
in `*found_devices` the length of the recorded list, records exactly the
non-reserved addresses whose write-address phase is acknowledged (in
increasing address order, truncated at `max_devices`), touches the bus
exactly for the attempted non-reserved candidates, and issues STOP as
the final register write of every attempt. -/
theorem i2c_scan_correct (bus : Nat → I2cWait × I2cWait) (maxDevices : Nat)
    (hmax : maxDevices ≠ 0) :
    (avr_i2c_scan bus maxDevices).1 = .ok ∧
    (avr_i2c_scan bus maxDevices).2.2.1 = (avr_i2c_scan bus maxDevices).2.1.length ∧
    (avr_i2c_scan bus maxDevices).2.1 =
      ((List.range 128).filter fun a =>
        !i2c_reserved_addr a && scan_acked bus a).take maxDevices ∧
    (avr_i2c_scan bus maxDevices).2.2.2 =
      ((scan_attempted bus maxDevices (List.range 128) 0).map
        (fun a => (scan_attempt bus a).2)).flatten ∧
    (∀ a, (scan_attempt bus a).2.getLast? = some (.twcr i2cStopCmd)) ∧
    (∀ a ∈ scan_attempted bus maxDevices (List.range 128) 0,
      i2c_reserved_addr a = false) := by
  have hspec := scan_loop_spec bus maxDevices (List.range 128) 0 [] []
  refine ⟨?_, ?_, ?_, ?_, scan_attempt_ends_with_stop bus,
    fun a h => scan_attempted_not_reserved bus maxDevices (List.range 128) 0 a h⟩
  · simp [avr_i2c_scan, hmax]
  · simp [avr_i2c_scan, hmax, hspec]
  · simp [avr_i2c_scan, hmax, hspec]
  · simp [avr_i2c_scan, hmax, hspec]

/-- A bus with a single device at address 0x50 (START always succeeds,
only 0x50 acknowledges its write address). -/
def i2cBusOne : Nat → I2cWait × I2cWait := fun a =>
  if a = 0x50 then (.ready 0x08 0, .ready 0x18 0)
  else (.ready 0x08 0, .ready 0x20 0)

/-- Witness for C5: scanning the single-device bus with room for three
devices finds exactly address 0x50 and reports one device found. -/
theorem i2c_scan_correct_witness :
    (avr_i2c_scan i2cBusOne 3).1 = .ok ∧
    (avr_i2c_scan i2cBusOne 3).2.1 = [0x50] ∧
    (avr_i2c_scan i2cBusOne 3).2.2.1 = 1 := by
  have h := i2c_scan_correct i2cBusOne 3 (by decide)
  refine ⟨h.1, ?_, ?_⟩
  · rw [h.2.2.1]
    decide
  · rw [h.2.1, h.2.2.1]
    decide

/-! ## SPI transfer (part_011 lines 129-186)

The SPIF poll loop is abstracted by a per-byte hardware response, as for
I2C: `timedOut` mirrors the loop's timeout branch (unreachable with the
placeholder zero time source, whose loop shape is settled by
`uart_wait_flag_stuck`), `done rx` mirrors SPIF setting with SPDR
holding `rx`. -/

/-- Response of the SPI hardware to one SPIF poll loop. -/
inductive SpiWait where
  | timedOut
  | done (rx : Nat)
deriving DecidableEq, Repr

/-- `eer_spi_transfer_event_t` as built by `avr_spi_transfer`: whether
the tx/rx pointers were NULL, the size, and the user data. -/
structure SpiEvent where
  txNull : Bool
  rxNull : Bool
  size : Nat
  userData : Option Nat
deriving DecidableEq, Repr

/-- Per-byte loop of `avr_spi_transfer` (part_011 lines 136-162): write
SPDR (`tx i`, or the dummy byte 0xFF when the tx pointer is NULL), poll
SPIF, then read SPDR into the caller's rx buffer, or read and discard
when the rx pointer is NULL.  Accumulates the SPDR writes and the bytes
stored into the rx buffer. -/
def avr_spi_transfer_loop (bus : Nat → SpiWait) (tx : Option (Nat → Nat))
    (hasRx : Bool) : Nat → Nat → List Nat → List Nat →
      HalStatus × List Nat × List Nat
  | 0, _, writes, rxOut => (.ok, writes, rxOut)
  | n + 1, i, writes, rxOut =>
    let txByte :=
      match tx with
      | some f => u8 (f i)
      | none => 0xFF
    let writes := writes ++ [txByte]
    match bus i with
    | .timedOut => (.timeout, writes, rxOut)
    | .done rx =>
      let rxOut := if hasRx then rxOut ++ [u8 rx] else rxOut
      avr_spi_transfer_loop bus tx hasRx n (i + 1) writes rxOut

/-- `avr_spi_transfer` (part_011 lines 129-178): parameter check, the
per-byte loop, then the completion callback when the whole transfer
succeeded and a handler is registered. -/
def avr_spi_transfer (bus : Nat → SpiWait) (handler ud : Option Nat)
    (tx : Option (Nat → Nat)) (hasRx : Bool) (size : Nat) :
    HalStatus × List Nat × List Nat × Option SpiEvent :=
  if size = 0 ∨ (tx.isNone ∧ hasRx = false) then (.invalidParam, [], [], none)
  else
    let r := avr_spi_transfer_loop bus tx hasRx size 0 [] []
    if r.1 = .ok then
      (r.1, r.2.1, r.2.2,
        if handler ≠ none then
          some { txNull := tx.isNone, rxNull := !hasRx,
                 size := size, userData := ud }
        else none)
    else (r.1, r.2.1, r.2.2, none)

/-- `avr_spi_transmit` (part_011 lines 180-182):
`transfer(data, NULL, size, timeout)`. -/
def avr_spi_transmit (bus : Nat → SpiWait) (handler ud : Option Nat)
    (tx : Option (Nat → Nat)) (size : Nat) :
    HalStatus × List Nat × List Nat × Option SpiEvent :=
  avr_spi_transfer bus handler ud tx false size

/-- `avr_spi_receive` (part_011 lines 184-186):
`transfer(NULL, data, size, timeout)`. -/
def avr_spi_receive (bus : Nat → SpiWait) (handler ud : Option Nat)
    (hasRx : Bool) (size : Nat) :
    HalStatus × List Nat × List Nat × Option SpiEvent :=
  avr_spi_transfer bus handler ud none hasRx size

/-- With a NULL tx pointer every SPDR write of the loop is the dummy
byte 0xFF. -/
theorem spi_loop_dummy_writes (bus : Nat → SpiWait) (hasRx : Bool) :
    ∀ (n i : Nat) (writes rxOut : List Nat), (∀ w ∈ writes, w = 0xFF) →
      ∀ w ∈ (avr_spi_transfer_loop bus none hasRx n i writes rxOut).2.1, w = 0xFF := by
  intro n
  induction n with
  | zero =>
    intro i writes rxOut hw
    simpa [avr_spi_transfer_loop] using hw
  | succ n ih =>
    intro i writes rxOut hw
    have hw2 : ∀ w ∈ writes ++ [255], w = 0xFF := by
      intro w hmem
      rcases List.mem_append.mp hmem with h | h
      · exact hw w h
      · simpa using h
    cases hbus : bus i with
    | timedOut =>
        simpa [avr_spi_transfer_loop, hbus] using hw2
    | done rx =>
        simp only [avr_spi_transfer_loop, hbus]
        exact ih (i + 1) _ _ hw2

/-- With a NULL rx pointer the loop never extends the caller's buffer. -/
theorem spi_loop_no_rx_writes (bus : Nat → SpiWait) (tx : Option (Nat → Nat)) :
    ∀ (n i : Nat) (writes rxOut : List Nat),
      (avr_spi_transfer_loop bus tx false n i writes rxOut).2.2 = rxOut := by
  intro n
  induction n with
  | zero => intro i writes rxOut; simp [avr_spi_transfer_loop]
  | succ n ih =>
    intro i writes rxOut
    cases hbus : bus i with
    | timedOut => simp [avr_spi_transfer_loop, hbus]
    | done rx => simp [avr_spi_transfer_loop, hbus, ih]

/-- Claim C6: `transmit` and `receive` are exactly `transfer` with the
respective side NULL (same status, same SPDR writes, same rx-buffer
writes, same callback event); within `transfer`, a NULL tx pointer makes
every SPDR write the dummy 0xFF, and a NULL rx pointer means no byte is
ever stored into a caller buffer. -/
theorem spi_transfer_wrappers_and_null_sides (bus : Nat → SpiWait)
    (handler ud : Option Nat) (tx : Option (Nat → Nat)) (hasRx : Bool)
    (size : Nat) :
    avr_spi_transmit bus handler ud tx size =
      avr_spi_transfer bus handler ud tx false size ∧
    avr_spi_receive bus handler ud hasRx size =
      avr_spi_transfer bus handler ud none hasRx size ∧
    (∀ w ∈ (avr_spi_transfer bus handler ud none hasRx size).2.1, w = 0xFF) ∧
    (avr_spi_transfer bus handler ud tx false size).2.2.1 = [] := by
  refine ⟨rfl, rfl, ?_, ?_⟩
  · intro w hmem
    have hall := spi_loop_dummy_writes bus hasRx size 0 [] [] (by simp)
    simp only [avr_spi_transfer] at hmem
    split at hmem
    · simp at hmem
    · split at hmem
      · exact hall w hmem
      · exact hall w hmem
  · have hrx := spi_loop_no_rx_writes bus tx size 0 [] []
    simp only [avr_spi_transfer]
    split
    · rfl
    · split
      · exact hrx
      · exact hrx

/-- A bus whose every byte completes with SPDR reading 0x5A. -/
def spiBusA : Nat → SpiWait := fun _ => .done 0x5A

/-- A concrete tx buffer holding 0x12 everywhere. -/
def spiTx12 : Option (Nat → Nat) := some fun _ => 0x12

/-- Witness for C6: at size 2, transmit with a tx buffer equals the
transfer call it wraps, a tx-only transfer stores nothing in a caller
buffer, and the first SPDR write of an rx-only transfer is the dummy
0xFF. -/
theorem spi_transfer_wrappers_witness :
    avr_spi_transmit spiBusA none none spiTx12 2 =
      avr_spi_transfer spiBusA none none spiTx12 false 2 ∧
    (avr_spi_transfer spiBusA none none spiTx12 false 2).2.2.1 = [] ∧
    (avr_spi_transfer spiBusA none none none true 2).2.1.headI = 0xFF := by
  have h := spi_transfer_wrappers_and_null_sides spiBusA none none spiTx12 true 2
  refine ⟨h.1, h.2.2.2, ?_⟩
  have hmem : (avr_spi_transfer spiBusA none none none true 2).2.1.headI ∈
      (avr_spi_transfer spiBusA none none none true 2).2.1 := by decide
  exact h.2.2.1 _ hmem

end EerHal
